import Mathlib

/-
  Verification of coc-explorer source files:
  - src/floating/floatingFactory3.ts : class FloatingFactory3
  - src/source/sources/buffer/child-columns/fullpath.ts : fullpath child column
    and the PresetList list command
  - src/source/sources/file/child-columns/readonly.ts : readonly child column

  JavaScript numbers that can be NaN in the modelled flow (the preview height
  returned by the host function FloatBuffer.getDimension, and the row derived
  from it) are modelled as Option Int with none standing for NaN; every other
  number in the flow is an Int. JavaScript comparisons against a possibly-NaN
  value are modelled by the js* helpers below, which return false on NaN,
  matching JavaScript comparison semantics.
-/

namespace CocExplorer

/-- A document shown in the floating window; only its content matters for the
control flow modelled here. -/
structure Doc where
  content : String
deriving DecidableEq, Repr

/-- The explorer position argument: "left", "right", "floating" or "tab". -/
inductive Position
| left
| right
| floating
| tab
deriving DecidableEq, Repr

/-- The explorer floating-position argument: "left-center", "right-center",
or any other value. -/
inductive FloatingPosition
| leftCenter
| rightCenter
| other
deriving DecidableEq, Repr

/-- Highlight groups referenced by the two child columns
(fileHighlights.readonly and bufferHighlights.fullpath). -/
inductive Highlight
| fileReadonly
| bufferFullpath
deriving DecidableEq, Repr

/-- One row.add call made by a column drawNode: the appended text and its
highlight group. -/
structure DrawSpan where
  text : String
  hl : Highlight
deriving DecidableEq, Repr

/-- JavaScript a < b where b may be NaN (none): a comparison with NaN is
false. -/
def jsLt (a : Int) (b : Option Int) : Bool :=
  match b with
  | some v => decide (a < v)
  | none => false

/-- JavaScript a > b where b may be NaN (none). -/
def jsGt (a : Int) (b : Option Int) : Bool :=
  match b with
  | some v => decide (a > v)
  | none => false

/-- JavaScript a >= b where b may be NaN (none). -/
def jsGe (a : Int) (b : Option Int) : Bool :=
  match b with
  | some v => decide (a ≥ v)
  | none => false

/-- JavaScript a <= b where a may be NaN (none). -/
def jsLe (a : Option Int) (b : Int) : Bool :=
  match a with
  | some v => decide (v ≤ b)
  | none => false

/-- JavaScript isNaN on a possibly-NaN value. -/
def jsIsNaN (a : Option Int) : Bool :=
  a.isNone

/-- The inputs of FloatingFactory3.getWindowConfig: host-reported dimensions,
constructor fields, explorer arguments, and the host responses the method
awaits. FloatBuffer.getDimension is host code, modelled as the oracle field
getDimension, whose height result may be NaN (none). -/
structure GWCInput where
  envLines : Int
  cmdheight : Int
  columns : Int
  preferTop : Bool
  maxHeight : Int
  winRow : Int
  position : Position
  hasContainerWin : Bool
  containerWidth : Int
  getDimension : Int → Int → Int × Option Int
  viewTopline : Int
  explorerLineIndex : Int
  floatingRow : Int
  floatingCol : Int
  floatingPosition : FloatingPosition

/-- The lines getter of FloatingFactory3: env.lines - env.cmdheight - 1. -/
def lines (i : GWCInput) : Int :=
  i.envLines - i.cmdheight - 1

/-- The maxWidth local of getWindowConfig: columns - containerWidth - 1. -/
def maxWidthOf (i : GWCInput) : Int :=
  i.columns - i.containerWidth - 1

/-- The maxHeight local of getWindowConfig. The source reads the local
alignTop variable, still false at this point, in the ternary
(alignTop ? winRow : lines - winRow - 1), then clamps by
(this.maxHeight || lines); the JavaScript truthiness of this.maxHeight is
modelled by the test against 0. -/
def maxHeightOf (i : GWCInput) : Int :=
  let alignTop := false
  let mh := if alignTop then i.winRow else lines i - i.winRow - 1
  min mh (if i.maxHeight = 0 then lines i else i.maxHeight)

/-- The previewWidth and previewHeight locals of getWindowConfig: the result
of FloatBuffer.getDimension(docs, maxWidth, maxHeight). -/
def previewDim (i : GWCInput) : Int × Option Int :=
  i.getDimension (maxWidthOf i) (maxHeightOf i)

/-- The align-top decision of getWindowConfig: alignTop starts false and is
set to true in exactly the two guarded branches of the source. -/
def alignTopOf (i : GWCInput) : Bool :=
  let previewHeight := (previewDim i).2
  if !i.preferTop then
    jsLt (lines i - i.winRow) previewHeight && jsGt i.winRow previewHeight
  else
    jsGe i.winRow previewHeight || decide (i.winRow ≥ lines i - i.winRow)

/-- The row local of getWindowConfig before the floating adjustment:
explorerLineIndex - view.topline + 1 + (alignTop ? -previewHeight + 1 : 0).
NaN propagates through the addition. -/
def rowOf (i : GWCInput) : Option Int :=
  let base := i.explorerLineIndex - i.viewTopline + 1
  if alignTopOf i then ((previewDim i).2).map (fun h => base + (-h + 1))
  else some base

/-- The window configuration returned by getWindowConfig. The row and height
may be NaN (none). -/
structure WindowConfig where
  row : Option Int
  col : Int
  width : Int
  height : Option Int
  relative : String
deriving DecidableEq, Repr

/-- The result of getWindowConfig: an early void return when there is no
container window, otherwise the assignment made to this.alignTop together
with the returned configuration (none models the void return taken for an
unknown floating position, which happens after the alignTop assignment). -/
inductive GWCResult
| noContainer
| result (alignTop : Bool) (config : Option WindowConfig)
deriving DecidableEq, Repr

/-- FloatingFactory3.getWindowConfig, lines 112 to 196 of
floatingFactory3.ts, as a pure function of its oracle inputs. -/
def getWindowConfig (i : GWCInput) : GWCResult :=
  if !i.hasContainerWin then GWCResult.noContainer
  else
    let previewWidth := (previewDim i).1
    let previewHeight := (previewDim i).2
    let alignTop := alignTopOf i
    let row0 := rowOf i
    match i.position with
    | Position.left =>
      GWCResult.result alignTop (some
        { row := row0, col := i.containerWidth, width := previewWidth,
          height := previewHeight, relative := "editor" })
    | Position.right =>
      GWCResult.result alignTop (some
        { row := row0, col := i.columns - previewWidth - i.containerWidth,
          width := previewWidth, height := previewHeight,
          relative := "editor" })
    | Position.floating =>
      let row1 := row0.map (fun r => r + i.floatingRow)
      match i.floatingPosition with
      | FloatingPosition.leftCenter =>
        GWCResult.result alignTop (some
          { row := row1, col := i.floatingCol + i.containerWidth,
            width := previewWidth, height := previewHeight,
            relative := "editor" })
      | FloatingPosition.rightCenter =>
        GWCResult.result alignTop (some
          { row := row1, col := i.floatingCol - previewWidth,
            width := previewWidth, height := previewHeight,
            relative := "editor" })
      | FloatingPosition.other =>
        GWCResult.result alignTop none
    | Position.tab =>
      GWCResult.result alignTop (some
        { row := row0, col := 0, width := previewWidth,
          height := previewHeight, relative := "editor" })

/-- The emptiness test shared by create and createPopup:
docs.length === 0 || docs.every((d) => d.content.length === 0). -/
def docsVoid (docs : List Doc) : Bool :=
  decide (docs.length = 0) || docs.all (fun d => decide (d.content.length = 0))

/-- The guard of createPopup at line 250:
config.width <= 0 || config.height <= 0 || isNaN(config.height). -/
def badConfig (cfg : WindowConfig) : Bool :=
  decide (cfg.width ≤ 0) || jsLe cfg.height 0 || jsIsNaN cfg.height

/-- Host effects performed by create and createPopup, in order. -/
inductive Eff
| logUnsupported
| cancelCursorMoved
| cancelToken
| closeWin
| getFloatMode
| setDocuments
| createFloatWin
| renderFloat
deriving DecidableEq, Repr

/-- The result of the host call coc#util#get_float_mode destructured by
createPopup; only the first entry of win_position is read later. -/
structure FloatMode where
  mode : String
  targetBufnr : Int
  winRow : Int

/-- Oracle inputs of createPopup: the get_float_mode response (none models a
falsy arr), the cancellation checks in order, the getWindowConfig inputs,
and the create_float_win response (none models a falsy res). -/
structure PopupEnv where
  arr : Option FloatMode
  cancelledAfterArr : Bool
  gwc : GWCInput
  cancelledAfterSetDocs : Bool
  createWinRes : Option (Int × Int)
  cancelledAfterCreateWin : Bool
  notifyErr : Bool

/-- The getWindowConfig input assembled inside createPopup: the stored
inputs with winRow taken from the win_position of the get_float_mode
response. -/
def gwcOfMode (g : GWCInput) (fm : FloatMode) : GWCInput :=
  { g with winRow := fm.winRow }

/-- FloatingFactory3.createPopup, lines 223 to 304, as the ordered list of
host effects it performs, paired with whether it throws (the
resumeNotification error at line 297). -/
def createPopup (docs : List Doc) (env : PopupEnv) : List Eff × Bool :=
  match env.arr with
  | none => ([Eff.getFloatMode], false)
  | some fm =>
    if env.cancelledAfterArr then ([Eff.getFloatMode], false)
    else if docsVoid docs then ([Eff.getFloatMode, Eff.closeWin], false)
    else
      match getWindowConfig (gwcOfMode env.gwc fm) with
      | GWCResult.noContainer => ([Eff.getFloatMode], false)
      | GWCResult.result _ none => ([Eff.getFloatMode], false)
      | GWCResult.result _ (some cfg) =>
        if badConfig cfg then ([Eff.getFloatMode, Eff.closeWin], false)
        else if env.cancelledAfterSetDocs then
          ([Eff.getFloatMode, Eff.setDocuments], false)
        else
          match env.createWinRes with
          | none => ([Eff.getFloatMode, Eff.setDocuments, Eff.createFloatWin], false)
          | some _ =>
            if env.cancelledAfterCreateWin then
              ([Eff.getFloatMode, Eff.setDocuments, Eff.createFloatWin], false)
            else
              ([Eff.getFloatMode, Eff.setDocuments, Eff.createFloatWin,
                Eff.renderFloat], env.notifyErr)

/-- FloatingFactory3.create, lines 198 to 221, as the ordered list of host
effects: the supportedFloat guard, the cursor-moved debounce cancel, the
empty-docs guard, the token cancel, then createPopup with its catch branch
closing the window. -/
def create (supported : Bool) (docs : List Doc) (env : PopupEnv) : List Eff :=
  if !supported then [Eff.logUnsupported]
  else if docsVoid docs then [Eff.cancelCursorMoved, Eff.closeWin]
  else
    let r := createPopup docs env
    [Eff.cancelCursorMoved, Eff.cancelToken] ++ r.1 ++
      (if r.2 then [Eff.closeWin] else [])

/-- A node of the file source; only the readonly flag is read by the
readonly column. -/
structure FileNode where
  readonly : Bool
deriving DecidableEq, Repr

/-- A node of the buffer source; only the fullpath is read by the fullpath
column. -/
structure BufferNode where
  fullpath : String
deriving DecidableEq, Repr

/-- The object returned by the draw() of the readonly child column. -/
structure ReadonlyColumn where
  labelOnly : Bool
  labelVisible : FileNode → Bool
  drawNode : FileNode → List DrawSpan

/-- The readonly child column of the file source, readonly.ts lines 4 to 20:
draw() captures the icon.enableNerdfont config and returns a labelOnly
column whose labelVisible reads node.readonly and whose drawNode appends
the marker under the readonly highlight when the node is readonly. -/
def readonlyColumnDraw (enabledNerdFont : Bool) : ReadonlyColumn :=
  { labelOnly := true
    labelVisible := fun node => node.readonly
    drawNode := fun node =>
      if node.readonly then
        [{ text := if node.readonly then (if enabledNerdFont then "" else "RO") else ""
           hl := Highlight.fileReadonly }]
      else [] }

/-- The fullpath child column of the buffer source, fullpath.ts lines 4 to
12: drawNode appends node.fullpath under the bufferHighlights.fullpath
highlight. -/
def fullpathDrawNode (node : BufferNode) : List DrawSpan :=
  [{ text := node.fullpath, hl := Highlight.bufferFullpath }]

/-- A list item produced by PresetList.loadItems: a label and a data object
holding only the preset name. -/
structure PresetItem where
  label : String
  dataName : String
deriving DecidableEq, Repr

/-- JavaScript Object.keys on a dictionary modelled as an ordered
association list. -/
def objectKeys {α : Type} (ps : List (String × α)) : List String :=
  ps.map Prod.fst

/-- PresetList.loadItems: maps each key of the presets dictionary returned
by getPresets to the item with that label and data name. -/
def loadItems {α : Type} (presets : List (String × α)) : List PresetItem :=
  (objectKeys presets).map (fun name => { label := name, dataName := name })

/-- PresetList.defaultAction. -/
def PresetList.defaultAction : String :=
  "do"

/-- The command dispatched by the do action of PresetList for a selected
item. -/
def PresetList.doActionCommand (item : PresetItem) : String :=
  "CocCommand explorer --preset " ++ item.dataName

/-- Line count of src/floating/floatingFactory3.ts. -/
def floatingFactoryLineCount : Nat := 337

/-- Line count of src/source/sources/buffer/child-columns/fullpath.ts. -/
def fullpathColumnLineCount : Nat := 12

/-- Line count of the PresetList source file. -/
def presetListLineCount : Nat := 38

/-- Line count of src/source/sources/file/child-columns/readonly.ts. -/
def readonlyColumnLineCount : Nat := 20

/-- Concrete getWindowConfig input used by the evaluation witnesses. -/
def gwcW1 : GWCInput :=
  { envLines := 40, cmdheight := 1, columns := 80, preferTop := false,
    maxHeight := 999, winRow := 10, position := Position.tab,
    hasContainerWin := true, containerWidth := 30,
    getDimension := fun _ _ => (5, some 3),
    viewTopline := 1, explorerLineIndex := 4, floatingRow := 0,
    floatingCol := 0, floatingPosition := FloatingPosition.other }

/-- Concrete createPopup environment used by the evaluation witness of the
empty-docs guard. -/
def envW8 : PopupEnv :=
  { arr := some { mode := "n", targetBufnr := 1, winRow := 10 },
    cancelledAfterArr := false, gwc := gwcW1,
    cancelledAfterSetDocs := false, createWinRes := some (1001, 1002),
    cancelledAfterCreateWin := false, notifyErr := false }

/-- Concrete createPopup environment whose computed window config has width
0, used by the evaluation witness of the bad-config guard. -/
def envW9 : PopupEnv :=
  { arr := some { mode := "n", targetBufnr := 1, winRow := 10 },
    cancelledAfterArr := false,
    gwc := { gwcW1 with getDimension := fun _ _ => (0, some 3) },
    cancelledAfterSetDocs := false, createWinRes := some (1001, 1002),
    cancelledAfterCreateWin := false, notifyErr := false }

/-- The get_float_mode response stored in envW9. -/
def fmW9 : FloatMode :=
  { mode := "n", targetBufnr := 1, winRow := 10 }

/-- Claim C2: PresetList.loadItems is a dictionary lookup: it returns
exactly one item per key of the presets dictionary, in key order, whose
label and data name both equal that key, and nothing else. -/
theorem C2_loadItems {α : Type} (presets : List (String × α)) :
    loadItems presets =
      (objectKeys presets).map (fun k => { label := k, dataName := k }) ∧
    (loadItems presets).length = (objectKeys presets).length := by
  refine ⟨rfl, ?_⟩
  simp [loadItems]

/-- Claim C3: the default action of PresetList is "do", and the do action
dispatches exactly the command "CocCommand explorer --preset " followed by
the data name stored in the selected item. -/
theorem C3_presetDefaultActionAndCommand :
    PresetList.defaultAction = "do" ∧
    ∀ item : PresetItem,
      PresetList.doActionCommand item =
        "CocCommand explorer --preset " ++ item.dataName :=
  ⟨rfl, fun _ => rfl⟩

/-- Claim C4: the readonly child column is labelOnly, its labelVisible
predicate equals node.readonly, and drawNode appends text under the
readonly highlight exactly when the node is readonly, the text being the
nerd-font icon U+E0A2 when icon.enableNerdfont is set and "RO"
otherwise. -/
theorem C4_readonlyColumn (e : Bool) (node : FileNode) :
    (readonlyColumnDraw e).labelOnly = true ∧
    (readonlyColumnDraw e).labelVisible node = node.readonly ∧
    (readonlyColumnDraw e).drawNode node =
      (if node.readonly then
        [{ text := if e then "" else "RO", hl := Highlight.fileReadonly }]
      else []) := by
  refine ⟨rfl, rfl, ?_⟩
  cases node with
  | mk r => cases r <;> simp [readonlyColumnDraw]

/-- Claim C5: the fullpath child column of the buffer source appends
exactly the node fullpath under the bufferHighlights.fullpath highlight,
and nothing else. -/
theorem C5_fullpathColumn (node : BufferNode) :
    fullpathDrawNode node =
      [{ text := node.fullpath, hl := Highlight.bufferFullpath }] :=
  rfl

/-- Claim C7 counterexample: it is not the case that the floating-window
factory, the list-preset command and the column renderers are each under
100 lines: the factory alone is 337 lines. -/
theorem C7_counterexample :
    ¬(floatingFactoryLineCount < 100 ∧ presetListLineCount < 100 ∧
      fullpathColumnLineCount < 100 ∧ readonlyColumnLineCount < 100) := by
  decide

/-- Claim C7 amended: the list-preset command and the two column renderers
are each under 100 lines, while the floating-window factory is 337 lines
and so not under 100. -/
theorem C7_amendedLineCounts :
    floatingFactoryLineCount = 337 ∧ ¬(floatingFactoryLineCount < 100) ∧
    presetListLineCount < 100 ∧ fullpathColumnLineCount < 100 ∧
    readonlyColumnLineCount < 100 := by
  decide

/-- Claim C10: the maxHeight passed to FloatBuffer.getDimension equals
min(lines - winRow - 1, this.maxHeight or lines) on every input and never
depends on the final align-top decision, because the local alignTop
variable is still false where maxHeight is computed. -/
theorem C10_maxHeightIndependentOfAlignTop (i : GWCInput) :
    maxHeightOf i =
      min (lines i - i.winRow - 1)
        (if i.maxHeight = 0 then lines i else i.maxHeight) ∧
    previewDim i = i.getDimension (maxWidthOf i) (maxHeightOf i) :=
  ⟨rfl, rfl⟩

/-- Claim C1: when a container window exists and getWindowConfig returns a
result, the align-top value it stores is decided by fixed arithmetic
comparisons: with preferTop false it is true iff
lines - winRow < previewHeight and winRow > previewHeight; with preferTop
true it is true iff winRow >= previewHeight or winRow >= lines - winRow,
where lines is env.lines - env.cmdheight - 1 and previewHeight is the
height reported by FloatBuffer.getDimension. -/
theorem C1_alignTopDecision (i : GWCInput) (hwin : i.hasContainerWin = true)
    (w ht : Int) (hdim : previewDim i = (w, some ht))
    (a : Bool) (cfg : Option WindowConfig)
    (hres : getWindowConfig i = GWCResult.result a cfg) :
    (i.preferTop = false →
      (a = true ↔ (lines i - i.winRow < ht ∧ i.winRow > ht))) ∧
    (i.preferTop = true →
      (a = true ↔ (i.winRow ≥ ht ∨ i.winRow ≥ lines i - i.winRow))) := by
  have ha : a = alignTopOf i := by
    unfold getWindowConfig at hres
    rw [hwin] at hres
    simp only [Bool.not_true, Bool.false_eq_true, if_false] at hres
    split at hres
    · injection hres with h1 _
      exact h1.symm
    · injection hres with h1 _
      exact h1.symm
    · split at hres
      · injection hres with h1 _
        exact h1.symm
      · injection hres with h1 _
        exact h1.symm
      · injection hres with h1 _
        exact h1.symm
    · injection hres with h1 _
      exact h1.symm
  constructor
  · intro hpt
    rw [ha]
    unfold alignTopOf
    rw [hdim]
    simp [hpt, jsLt, jsGt]
  · intro hpt
    rw [ha]
    unfold alignTopOf
    rw [hdim]
    simp [hpt, jsGe]

/-- Evaluation of C1_alignTopDecision on a concrete input. -/
theorem C1_alignTopDecision_witness :
    (gwcW1.preferTop = false →
      ((false : Bool) = true ↔
        (lines gwcW1 - gwcW1.winRow < 3 ∧ gwcW1.winRow > 3))) ∧
    (gwcW1.preferTop = true →
      ((false : Bool) = true ↔
        (gwcW1.winRow ≥ 3 ∨ gwcW1.winRow ≥ lines gwcW1 - gwcW1.winRow))) :=
  C1_alignTopDecision gwcW1 rfl 5 3 rfl false
    (some { row := some 4, col := 0, width := 5, height := some 3,
            relative := "editor" })
    (by decide)

/-- Claim C6: when a container window exists, getWindowConfig places the
preview column purely by arithmetic: col is containerWidth for position
left, columns - previewWidth - containerWidth for right, and for position
floating it is floatingCol + containerWidth at floating position
left-center, floatingCol - previewWidth at right-center, with a void
return for any other floating position; any other position leaves col at
0. -/
theorem C6_colPlacement (i : GWCInput) (hwin : i.hasContainerWin = true) :
    (i.position = Position.left →
      getWindowConfig i = GWCResult.result (alignTopOf i) (some
        { row := rowOf i, col := i.containerWidth,
          width := (previewDim i).1, height := (previewDim i).2,
          relative := "editor" })) ∧
    (i.position = Position.right →
      getWindowConfig i = GWCResult.result (alignTopOf i) (some
        { row := rowOf i,
          col := i.columns - (previewDim i).1 - i.containerWidth,
          width := (previewDim i).1, height := (previewDim i).2,
          relative := "editor" })) ∧
    (i.position = Position.floating →
      i.floatingPosition = FloatingPosition.leftCenter →
      getWindowConfig i = GWCResult.result (alignTopOf i) (some
        { row := (rowOf i).map (fun r => r + i.floatingRow),
          col := i.floatingCol + i.containerWidth,
          width := (previewDim i).1, height := (previewDim i).2,
          relative := "editor" })) ∧
    (i.position = Position.floating →
      i.floatingPosition = FloatingPosition.rightCenter →
      getWindowConfig i = GWCResult.result (alignTopOf i) (some
        { row := (rowOf i).map (fun r => r + i.floatingRow),
          col := i.floatingCol - (previewDim i).1,
          width := (previewDim i).1, height := (previewDim i).2,
          relative := "editor" })) ∧
    (i.position = Position.floating →
      i.floatingPosition = FloatingPosition.other →
      getWindowConfig i = GWCResult.result (alignTopOf i) none) ∧
    (i.position = Position.tab →
      getWindowConfig i = GWCResult.result (alignTopOf i) (some
        { row := rowOf i, col := 0,
          width := (previewDim i).1, height := (previewDim i).2,
          relative := "editor" })) := by
  refine ⟨?_, ?_, ?_, ?_, ?_, ?_⟩
  · intro hp
    unfold getWindowConfig
    rw [hp]
    simp [hwin]
  · intro hp
    unfold getWindowConfig
    rw [hp]
    simp [hwin]
  · intro hp hfp
    unfold getWindowConfig
    rw [hp, hfp]
    simp [hwin]
  · intro hp hfp
    unfold getWindowConfig
    rw [hp, hfp]
    simp [hwin]
  · intro hp hfp
    unfold getWindowConfig
    rw [hp, hfp]
    simp [hwin]
  · intro hp
    unfold getWindowConfig
    rw [hp]
    simp [hwin]

/-- Evaluation of C6_colPlacement on a concrete input with position tab. -/
theorem C6_colPlacement_witness :
    getWindowConfig gwcW1 = GWCResult.result (alignTopOf gwcW1) (some
      { row := rowOf gwcW1, col := 0,
        width := (previewDim gwcW1).1, height := (previewDim gwcW1).2,
        relative := "editor" }) :=
  (C6_colPlacement gwcW1 rfl).2.2.2.2.2 rfl

/-- Claim C8: when the docs list is empty or every document content is
empty, create closes the float window and performs no popup creation, and
the recheck in createPopup (once the get_float_mode response arrived and
the token is not cancelled) likewise closes the float window and returns
before the window-creation host call. -/
theorem C8_emptyDocsClose (docs : List Doc) (env : PopupEnv)
    (hd : docsVoid docs = true) :
    (create true docs env = [Eff.cancelCursorMoved, Eff.closeWin] ∧
      Eff.closeWin ∈ create true docs env ∧
      Eff.createFloatWin ∉ create true docs env) ∧
    (env.arr.isSome = true → env.cancelledAfterArr = false →
      ((createPopup docs env).1 = [Eff.getFloatMode, Eff.closeWin] ∧
        Eff.closeWin ∈ (createPopup docs env).1 ∧
        Eff.createFloatWin ∉ (createPopup docs env).1)) := by
  constructor
  · have h1 : create true docs env = [Eff.cancelCursorMoved, Eff.closeWin] := by
      unfold create
      simp [hd]
    refine ⟨h1, ?_, ?_⟩ <;> rw [h1] <;> simp
  · intro ha hc
    obtain ⟨fm, hfm⟩ := Option.isSome_iff_exists.mp ha
    have h2 : (createPopup docs env).1 = [Eff.getFloatMode, Eff.closeWin] := by
      unfold createPopup
      rw [hfm]
      simp [hc, hd]
    refine ⟨h2, ?_, ?_⟩ <;> rw [h2] <;> simp

/-- Evaluation of C8_emptyDocsClose on the empty docs list. -/
theorem C8_emptyDocsClose_witness :
    docsVoid ([] : List Doc) = true ∧
    create true [] envW8 = [Eff.cancelCursorMoved, Eff.closeWin] ∧
    (createPopup [] envW8).1 = [Eff.getFloatMode, Eff.closeWin] :=
  ⟨by decide,
    (C8_emptyDocsClose [] envW8 (by decide)).1.1,
    ((C8_emptyDocsClose [] envW8 (by decide)).2 (by decide) rfl).1⟩

/-- Claim C9: when createPopup reaches a computed window config whose width
is not positive, whose height is not positive, or whose height is NaN, it
closes the float window and returns without the window-creation host
call. -/
theorem C9_badConfigClose (docs : List Doc) (env : PopupEnv) (fm : FloatMode)
    (ha : env.arr = some fm) (hc : env.cancelledAfterArr = false)
    (hd : docsVoid docs = false) (a : Bool) (cfg : WindowConfig)
    (hw : getWindowConfig (gwcOfMode env.gwc fm) =
      GWCResult.result a (some cfg))
    (hbad : badConfig cfg = true) :
    (createPopup docs env).1 = [Eff.getFloatMode, Eff.closeWin] ∧
    Eff.closeWin ∈ (createPopup docs env).1 ∧
    Eff.createFloatWin ∉ (createPopup docs env).1 := by
  have h2 : (createPopup docs env).1 = [Eff.getFloatMode, Eff.closeWin] := by
    unfold createPopup
    rw [ha]
    simp [hc, hd, hw, hbad]
  refine ⟨h2, ?_, ?_⟩ <;> rw [h2] <;> simp

/-- Evaluation of C9_badConfigClose on a config whose width is 0. -/
theorem C9_badConfigClose_witness :
    docsVoid [({ content := "x" } : Doc)] = false ∧
    (createPopup [{ content := "x" }] envW9).1 =
      [Eff.getFloatMode, Eff.closeWin] :=
  ⟨by decide,
    (C9_badConfigClose [{ content := "x" }] envW9 fmW9 rfl rfl (by decide)
      false
      { row := some 4, col := 0, width := 0, height := some 3,
        relative := "editor" }
      (by decide) (by decide)).1⟩

end CocExplorer
